import Mathlib

/-!
Shallow embedding of the patient-treatment-outcome inference service
(`src/api/main.py`, with the training-side artifact shapes fixed by
`src/data/preprocess.py`).  Python values appearing in a pandas dataframe
cell are modelled by `PyVal`; a single-row dataframe is an ordered
association list of column name to value; floats are idealised as `ℚ`.
The HTTP handler is modelled as a pure function from the server state,
the request, and the clock reading to a response together with a trace of
side-effect events (encoder transforms, scaling, model evaluation,
Prometheus counter increments and histogram observations).
-/

namespace DrugAPI

/-- A column/field name. -/
abbrev Field := String

/-- A Python scalar value as it sits in a dataframe cell or a parsed JSON
body: an int, a string, or a float (floats idealised as rationals). -/
inductive PyVal where
  | int : ℤ → PyVal
  | str : String → PyVal
  | float : ℚ → PyVal
deriving DecidableEq, Repr

/-- Python str() of a value, as used in the f-string building the 400
detail message.  (Float formatting is approximated; in this service the
only values ever formatted are the raw categorical strings.) -/
def PyVal.pyStr : PyVal → String
  | .int n => toString n
  | .str s => s
  | .float q => toString q

/-- Numeric coercion of a cell, as pandas/xgboost would consume it:
ints and floats are numeric, a string cell is a type error. -/
def PyVal.toQ : PyVal → Option ℚ
  | .int n => some (n : ℚ)
  | .str _ => none
  | .float q => some q

/-- Index of a string in a list: position of the first occurrence,
`none` when absent.  This is `LabelEncoder.transform` on a single label:
the position of the label in `classes_`. -/
def idxOf : List String → String → Option Nat
  | [], _ => none
  | c :: cs, s => if c = s then some 0 else (idxOf cs s).map (· + 1)

/-- A fitted sklearn `LabelEncoder`: the ordered list of known label
strings (`classes_`).  `preprocess.py` fits it on string-cast columns, so
the classes are strings. -/
structure LabelEncoder where
  classes : List String
deriving DecidableEq, Repr

/-- `le.transform([v])` on one cell: a known string label maps to its
index in `classes_`; an unknown label, or a non-string cell, raises
`ValueError` (modelled as `.error`, carrying the offending value). -/
def LabelEncoder.transformVal (le : LabelEncoder) (v : PyVal) : Except PyVal ℤ :=
  match v with
  | .str s =>
    match idxOf le.classes s with
    | some i => .ok (i : ℤ)
    | none => .error v
  | _ => .error v

/-- A fitted sklearn `StandardScaler`: per-feature mean and scale
(stddev), in the order of the columns it was fit on
(`num_cols` in `preprocess.py`). -/
structure StandardScaler where
  mean_ : List ℚ
  scale_ : List ℚ
deriving DecidableEq, Repr

/-- `scaler.transform` on one row: `(x - mean) / scale` per feature.
A feature-count mismatch against the fitted shape raises (sklearn
`n_features` check), modelled as `.error`. -/
def StandardScaler.transformRow (s : StandardScaler) (xs : List ℚ) :
    Except Unit (List ℚ) :=
  if xs.length = s.mean_.length ∧ xs.length = s.scale_.length then
    .ok ((xs.zip (s.mean_.zip s.scale_)).map fun p => (p.1 - p.2.1) / p.2.2)
  else
    .error ()

/-- The trained model artifact, abstracted as the function a fitted
regressor computes on one feature row (`model.predict(df)[0]`). -/
def Model := List ℚ → ℚ

/-- A single-row pandas dataframe: ordered columns, one cell each. -/
abbrev Df := List (Field × PyVal)

/-- `df[col]` on a single row (`none` when the column is absent). -/
def lookupCol : Df → Field → Option PyVal
  | [], _ => none
  | (c, v) :: rest, col => if c = col then some v else lookupCol rest col

/-- `df[col] = x`: overwrite an existing column in place.  (pandas would
append a missing column, but every call site is guarded by
`col in df.columns`, so only overwriting is modelled.) -/
def setCol : Df → Field → PyVal → Df
  | [], _, _ => []
  | (c, v) :: rest, col, x =>
    if c = col then (c, x) :: setCol rest col x else (c, v) :: setCol rest col x

/-- The request body schema of `POST /predict` (pydantic model
`PredictionRequest` in `main.py`). -/
structure PredictionRequest where
  Age : ℤ
  Gender : String
  Condition : String
  Drug_Name : String
  Dosage_mg : ℚ
  Treatment_Duration_days : ℤ
  Side_Effects : String
deriving DecidableEq, Repr

/-- `request.dict()`: the body as an ordered dict, in pydantic field
declaration order.  `pd.DataFrame([data])` keeps exactly this column
order, so the same list also serves as the initial dataframe. -/
def PredictionRequest.toDict (r : PredictionRequest) : Df :=
  [("Age", .int r.Age), ("Gender", .str r.Gender),
   ("Condition", .str r.Condition), ("Drug_Name", .str r.Drug_Name),
   ("Dosage_mg", .float r.Dosage_mg),
   ("Treatment_Duration_days", .int r.Treatment_Duration_days),
   ("Side_Effects", .str r.Side_Effects)]

/-- The response schema of a successful `POST /predict` (pydantic model
`PredictionResponse`): the handler returns only the score and FastAPI
fills the declared default `Model_Version = "v1"`. -/
structure PredictionResponse where
  Improvement_Score : ℚ
  Model_Version : String
deriving DecidableEq, Repr

/-- A raised `HTTPException`: status code and detail message. -/
structure HTTPError where
  status_code : Nat
  detail : String
deriving DecidableEq, Repr

/-- One observable side effect of handling a request. -/
inductive Event where
  /-- `le.transform` was invoked for this column (successfully or not). -/
  | encodeCol : Field → Event
  /-- `scaler.transform` was invoked. -/
  | scale : Event
  /-- `model.predict` was invoked on this feature row. -/
  | modelEval : List ℚ → Event
  /-- `REQUEST_COUNT.labels(..., status=s).inc()`. -/
  | metricInc : String → Event
  /-- `REQUEST_LATENCY.labels(endpoint).observe(latency)`. -/
  | metricObserve : ℚ → Event
deriving DecidableEq, Repr

/-- The module-level globals `model`, `encoders`, `scaler`
(`None` until `load_artifacts` assigns them). -/
structure ServerState where
  model : Option Model
  encoders : Option (List (Field × LabelEncoder))
  scaler : Option StandardScaler

/-- `os.getenv("API_KEY", "secret-token")`: the configured credential,
falling back to the hardcoded default when the variable is unset. -/
def apiKeyConfig (env : Option String) : String :=
  env.getD "secret-token"

/-- The `get_api_key` security dependency: the `X-API-Key` header value
(`none` when the header is missing, since `auto_error=False`) is compared
to the configured key with `==`; a mismatch or a missing header raises
403. -/
def get_api_key (configuredKey : String) (header : Option String) :
    Except HTTPError String :=
  match header with
  | some k =>
    if k = configuredKey then .ok k
    else .error ⟨403, "Could not validate credentials"⟩
  | none => .error ⟨403, "Could not validate credentials"⟩

/-- The encoding loop of `predict`:
`for col, le in encoders.items(): if col in df.columns: df[col] = le.transform(df[col])`,
with a `ValueError` converted to a 400 whose detail reports `data[col]`.
Returns the transformed dataframe or the first offending
`(column, data[col])`, together with the trace of transform invocations.
`data` is the immutable `request.dict()`; when the loop fails, `col` is a
dataframe column, hence a key of `data`, so the `getD` default is never
used. -/
def encodeLoop (data : Df) :
    List (Field × LabelEncoder) → Df → Except (Field × PyVal) Df × List Event
  | [], df => (.ok df, [])
  | (col, le) :: rest, df =>
    match lookupCol df col with
    | none => encodeLoop data rest df
    | some v =>
      match le.transformVal v with
      | .ok i =>
        let r := encodeLoop data rest (setCol df col (.int i))
        (r.1, .encodeCol col :: r.2)
      | .error _ => (.error (col, (lookupCol data col).getD v), [.encodeCol col])

/-- The numeric columns scaled at inference time (`num_cols` in
`predict`, matching the columns the scaler was fit on in
`preprocess.py`). -/
def num_cols : List Field := ["Age", "Dosage_mg", "Treatment_Duration_days"]

/-- Read one cell as a number (`df[num_cols]` handed to sklearn): a
missing column or a string cell raises, ending in the generic 500
handler. -/
def getNum (df : Df) (c : Field) : Except Unit ℚ :=
  match lookupCol df c with
  | some v =>
    match v.toQ with
    | some q => .ok q
    | none => .error ()
  | none => .error ()

/-- Read a list of cells as numbers, failing on the first fault. -/
def getNums (df : Df) : List Field → Except Unit (List ℚ)
  | [] => .ok []
  | c :: cs =>
    match getNum df c with
    | .ok q =>
      match getNums df cs with
      | .ok qs => .ok (q :: qs)
      | .error e => .error e
    | .error e => .error e

/-- Write scaled values back column-wise:
`df[num_cols] = scaler.transform(df[num_cols])`. -/
def setNums (df : Df) : List Field → List ℚ → Df
  | [], _ => df
  | _, [] => df
  | c :: cs, q :: qs => setNums (setCol df c (.float q)) cs qs

/-- The scaling step of `predict`: extract `df[num_cols]`, apply the
scaler, assign back. -/
def scaleStep (sc : StandardScaler) (df : Df) : Except Unit Df :=
  match getNums df num_cols with
  | .error e => .error e
  | .ok vals =>
    match sc.transformRow vals with
    | .error e => .error e
    | .ok scaled => .ok (setNums df num_cols scaled)

/-- The training-time column order the model expects
(`expected_cols` in `predict`). -/
def expected_cols : List Field :=
  ["Age", "Gender", "Condition", "Drug_Name", "Dosage_mg",
   "Treatment_Duration_days", "Side_Effects"]

/-- `df = df[expected_cols]` followed by reading the row numerically for
`model.predict`: the feature vector, in `expected_cols` order.  A missing
column (KeyError) or a leftover string cell (xgboost type error) raises,
ending in the generic 500 handler. -/
def featureRow (df : Df) : Except Unit (List ℚ) :=
  getNums df expected_cols

/-- The `try:` body of `predict` once all three artifacts are truthy:
encode, scale, reorder, evaluate the model; unknown category → 400 with
no metrics (the `HTTPException` is re-raised by the first `except`);
any other fault → 500 with a count increment but no latency observation;
success → latency observation then a 200 count increment.
`t` is the measured latency `time.time() - start_time`. -/
def runPipeline (m : Model) (es : List (Field × LabelEncoder))
    (sc : StandardScaler) (request : PredictionRequest) (t : ℚ) :
    Except HTTPError PredictionResponse × List Event :=
  let data := request.toDict
  let enc := encodeLoop data es data
  match enc.1 with
  | .error cv =>
    (.error ⟨400, "Unknown category for " ++ cv.1 ++ ": " ++ cv.2.pyStr⟩, enc.2)
  | .ok df1 =>
    match scaleStep sc df1 with
    | .error _ =>
      (.error ⟨500, "Internal server error"⟩, enc.2 ++ [.scale, .metricInc "500"])
    | .ok df2 =>
      match featureRow df2 with
      | .error _ =>
        (.error ⟨500, "Internal server error"⟩, enc.2 ++ [.scale, .metricInc "500"])
      | .ok vec =>
        (.ok ⟨m vec, "v1"⟩,
         enc.2 ++ [.scale, .modelEval vec, .metricObserve t, .metricInc "200"])

/-- The body of the `predict` endpoint:
`if not model or not encoders or not scaler:` → 503 with a count
increment (an empty encoders dict is falsy in Python, like `None`);
otherwise run the pipeline. -/
def predict (st : ServerState) (request : PredictionRequest) (t : ℚ) :
    Except HTTPError PredictionResponse × List Event :=
  match st.model, st.encoders, st.scaler with
  | some m, some es, some sc =>
    if es = [] then
      (.error ⟨503, "Model not loaded"⟩, [.metricInc "503"])
    else
      runPipeline m es sc request t
  | _, _, _ => (.error ⟨503, "Model not loaded"⟩, [.metricInc "503"])

/-- The full route `POST /predict` with its
`dependencies=[Depends(get_api_key)]`: a failed credential check raises
403 before the endpoint body ever runs (no events); otherwise the body
runs. -/
def predictRoute (configuredKey : String) (st : ServerState)
    (header : Option String) (request : PredictionRequest) (t : ℚ) :
    Except HTTPError PredictionResponse × List Event :=
  match get_api_key configuredKey header with
  | .error e => (.error e, [])
  | .ok _ => predict st request t

/-- Read one JSON field as an int (pydantic `int` field). -/
def PyVal.asInt : PyVal → Option ℤ
  | .int n => some n
  | _ => none

/-- Read one JSON field as a float (pydantic `float` field; JSON ints
coerce to float). -/
def PyVal.asFloat : PyVal → Option ℚ
  | .float q => some q
  | .int n => some (n : ℚ)
  | _ => none

/-- Read one JSON field as a string (pydantic `str` field). -/
def PyVal.asStr : PyVal → Option String
  | .str s => some s
  | _ => none

/-- Pydantic validation of the JSON body object (an ordered list of
key-value pairs) into `PredictionRequest`: each declared field is looked
up by name; the key order of the body itself is irrelevant. -/
def parseRequest (raw : List (String × PyVal)) : Option PredictionRequest := do
  let age ← (lookupCol raw "Age").bind PyVal.asInt
  let gender ← (lookupCol raw "Gender").bind PyVal.asStr
  let condition ← (lookupCol raw "Condition").bind PyVal.asStr
  let drug ← (lookupCol raw "Drug_Name").bind PyVal.asStr
  let dosage ← (lookupCol raw "Dosage_mg").bind PyVal.asFloat
  let duration ← (lookupCol raw "Treatment_Duration_days").bind PyVal.asInt
  let sideEffects ← (lookupCol raw "Side_Effects").bind PyVal.asStr
  pure ⟨age, gender, condition, drug, dosage, duration, sideEffects⟩

/-- The route as seen from the wire: authenticate, validate the body
(a validation failure is the 422 of FastAPI), then run the endpoint body. -/
def handleRaw (configuredKey : String) (st : ServerState)
    (header : Option String) (raw : List (String × PyVal)) (t : ℚ) :
    Except HTTPError PredictionResponse × List Event :=
  match get_api_key configuredKey header with
  | .error e => (.error e, [])
  | .ok _ =>
    match parseRequest raw with
    | none => (.error ⟨422, "validation error"⟩, [])
    | some req => predict st req t

/-- `GET /health`: 503 when the global `model` is `None`, a healthy
payload otherwise.  Only `model` is inspected. -/
def health_check (st : ServerState) : Except HTTPError (String × String) :=
  if st.model.isSome then .ok ("healthy", "drug-prediction-api")
  else .error ⟨503, "Model not loaded"⟩

/-- The `load_artifacts` startup hook: the three `joblib.load` calls run
in sequence inside one `try`; an exception at any point is caught and
logged, leaving the globals assigned so far and returning normally (the
function is total: the process never crashes).  Each argument is the
outcome of one load. -/
def load_artifacts (lm : Except String Model)
    (le : Except String (List (Field × LabelEncoder)))
    (ls : Except String StandardScaler) : ServerState :=
  match lm with
  | .error _ => ⟨none, none, none⟩
  | .ok m =>
    match le with
    | .error _ => ⟨some m, none, none⟩
    | .ok es =>
      match ls with
      | .error _ => ⟨some m, some es, none⟩
      | .ok sc => ⟨some m, some es, some sc⟩

instance {ε α : Type} [DecidableEq ε] [DecidableEq α] :
    DecidableEq (Except ε α) := fun a b =>
  match a, b with
  | .ok x, .ok y =>
    if h : x = y then isTrue (by rw [h]) else isFalse (by simp [h])
  | .error x, .error y =>
    if h : x = y then isTrue (by rw [h]) else isFalse (by simp [h])
  | .ok _, .error _ => isFalse (by simp)
  | .error _, .ok _ => isFalse (by simp)

/-- The statuses of the `REQUEST_COUNT` increments in a trace,
in order. -/
def incStatuses (evs : List Event) : List String :=
  evs.filterMap fun e =>
    match e with
    | .metricInc s => some s
    | _ => none

/-- The number of `REQUEST_LATENCY` observations in a trace. -/
def obsCount (evs : List Event) : Nat :=
  (evs.filterMap fun e =>
    match e with
    | .metricObserve q => some q
    | _ => none).length

/-- The feature rows handed to `model.predict` in a trace, in order. -/
def modelEvalVecs (evs : List Event) : List (List ℚ) :=
  evs.filterMap fun e =>
    match e with
    | .modelEval v => some v
    | _ => none

/-- The wire status of a handler outcome (200 on success). -/
def statusOf (r : Except HTTPError PredictionResponse) : Nat :=
  match r with
  | .ok _ => 200
  | .error e => e.status_code

/-- Readiness in the sense of the spec: all three artifacts loaded. -/
def bundleFullyLoaded (st : ServerState) : Bool :=
  st.model.isSome && st.encoders.isSome && st.scaler.isSome

/-- One step of the encoding loop neither fails nor would fail: the
column is absent from the dict (the loop skips it) or its value is a
known label of the encoder of that column. -/
def encodeStepOk (data : Df) (p : Field × LabelEncoder) : Bool :=
  match lookupCol data p.1 with
  | none => true
  | some v => (p.2.transformVal v).isOk

/-- A shared concrete bundle for witnesses: encoders as `preprocess.py`
fits them, an identity scaler (mean 0, scale 1 per numeric column), and
a model reading off the first feature. -/
def sampleEncoders : List (Field × LabelEncoder) :=
  [("Gender", ⟨["Female", "Male"]⟩), ("Condition", ⟨["Asthma", "Diabetes"]⟩),
   ("Drug_Name", ⟨["DrugA", "DrugB"]⟩), ("Side_Effects", ⟨["Mild", "None"]⟩)]

/-- A shared concrete scaler for witnesses. -/
def sampleScaler : StandardScaler := ⟨[0, 0, 0], [1, 1, 1]⟩

/-- A shared concrete model for witnesses. -/
def sampleModel : Model := fun v => v.headD 0

/-- A fully loaded server state for witnesses. -/
def sampleState : ServerState :=
  ⟨some sampleModel, some sampleEncoders, some sampleScaler⟩

/-- A request whose categorical values are all known to
`sampleEncoders`. -/
def sampleReq : PredictionRequest :=
  ⟨50, "Male", "Asthma", "DrugB", 120, 35, "None"⟩

/-- A concrete JSON body, fields in pydantic declaration order. -/
def rawBody1 : List (String × PyVal) :=
  [("Age", .int 50), ("Gender", .str "Male"), ("Condition", .str "Asthma"),
   ("Drug_Name", .str "DrugB"), ("Dosage_mg", .float 120),
   ("Treatment_Duration_days", .int 35), ("Side_Effects", .str "None")]

/-- The same JSON body with its keys in reversed order. -/
def rawBody2 : List (String × PyVal) :=
  [("Side_Effects", .str "None"), ("Treatment_Duration_days", .int 35),
   ("Dosage_mg", .float 120), ("Drug_Name", .str "DrugB"),
   ("Condition", .str "Asthma"), ("Gender", .str "Male"), ("Age", .int 50)]

/-! ## Auxiliary lemmas -/

theorem lookupCol_setCol_ne (df : Df) (c c' : Field) (x : PyVal)
    (h : c' ≠ c) : lookupCol (setCol df c x) c' = lookupCol df c' := by
  induction df with
  | nil => rfl
  | cons p rest ih =>
    obtain ⟨a, b⟩ := p
    by_cases hac : a = c
    · subst hac
      simp [setCol, lookupCol, Ne.symm h, ih]
    · by_cases hac' : a = c'
      · subst hac'
        simp [setCol, lookupCol, hac]
      · simp [setCol, lookupCol, hac, hac', ih]

theorem encodeLoop_trace (data : Df) (es : List (Field × LabelEncoder)) :
    ∀ df : Df, ∃ cs : List Field,
      (encodeLoop data es df).2 = cs.map Event.encodeCol := by
  induction es with
  | nil => intro df; exact ⟨[], rfl⟩
  | cons p rest ih =>
    intro df
    obtain ⟨col, le⟩ := p
    simp only [encodeLoop]
    cases hl : lookupCol df col with
    | none => exact ih df
    | some v =>
      cases ht : le.transformVal v with
      | ok i =>
        obtain ⟨cs, hcs⟩ := ih (setCol df col (.int i))
        refine ⟨col :: cs, ?_⟩
        simp [ht, hcs]
      | error e =>
        refine ⟨[col], ?_⟩
        simp [ht]

theorem incStatuses_map_encodeCol (cs : List Field) :
    incStatuses (cs.map Event.encodeCol) = [] := by
  simp only [incStatuses]
  exact List.filterMap_eq_nil_iff.mpr (by intro a ha; simp at ha; obtain ⟨c, _, h⟩ := ha; subst h; rfl)

theorem obsCount_map_encodeCol (cs : List Field) :
    obsCount (cs.map Event.encodeCol) = 0 := by
  simp only [obsCount]
  rw [List.filterMap_eq_nil_iff.mpr (by intro a ha; simp at ha; obtain ⟨c, _, h⟩ := ha; subst h; rfl)]
  rfl

theorem modelEvalVecs_map_encodeCol (cs : List Field) :
    modelEvalVecs (cs.map Event.encodeCol) = [] := by
  simp only [modelEvalVecs]
  exact List.filterMap_eq_nil_iff.mpr (by intro a ha; simp at ha; obtain ⟨c, _, h⟩ := ha; subst h; rfl)

theorem incStatuses_append (a b : List Event) :
    incStatuses (a ++ b) = incStatuses a ++ incStatuses b :=
  List.filterMap_append a b _

theorem obsCount_append (a b : List Event) :
    obsCount (a ++ b) = obsCount a + obsCount b := by
  simp [obsCount, List.filterMap_append]

theorem lookup_perm {l1 l2 : List (String × PyVal)} (p : l1.Perm l2)
    (nd : (l1.map Prod.fst).Nodup) (k : String) :
    lookupCol l1 k = lookupCol l2 k := by
  induction p with
  | nil => rfl
  | cons x p ih =>
    obtain ⟨a, b⟩ := x
    simp only [List.map_cons, List.nodup_cons] at nd
    simp only [lookupCol]
    by_cases hak : a = k
    · simp [hak]
    · simp [hak, ih nd.2]
  | swap x y l =>
    obtain ⟨a, b⟩ := x
    obtain ⟨c, d⟩ := y
    simp only [List.map_cons, List.nodup_cons, List.mem_cons] at nd
    have hca : c ≠ a := fun h => nd.1 (Or.inl h)
    simp only [lookupCol]
    by_cases hck : c = k
    · subst hck
      simp [Ne.symm hca]
    · simp [hck]
  | trans p1 p2 ih1 ih2 =>
    have nd2 := (p1.map Prod.fst).nodup nd
    exact (ih1 nd).trans (ih2 nd2)

theorem parseRequest_congr {r1 r2 : List (String × PyVal)}
    (h : ∀ k, lookupCol r1 k = lookupCol r2 k) :
    parseRequest r1 = parseRequest r2 := by
  simp only [parseRequest, h]

/-- The encoding loop fails at the first entry whose column is present
with an unknown value, provided every earlier entry is skipped or
succeeds, and reports that column with its raw value from `data`;
the trace holds only encoder invocations. -/
theorem encodeLoop_first_failure (data : Df) :
    ∀ (pre : List (Field × LabelEncoder)) (df : Df) (col : Field)
      (le : LabelEncoder) (post : List (Field × LabelEncoder)) (v : PyVal),
      ((pre ++ (col, le) :: post).map Prod.fst).Nodup →
      (∀ p ∈ pre, encodeStepOk data p = true) →
      lookupCol data col = some v →
      (le.transformVal v).isOk = false →
      (∀ c, c ∈ pre.map Prod.fst ∨ c = col →
        lookupCol df c = lookupCol data c) →
      ∃ cs : List Field,
        encodeLoop data (pre ++ (col, le) :: post) df
          = (.error (col, v), cs.map Event.encodeCol) := by
  intro pre
  induction pre with
  | nil =>
    intro df col le post v _ _ hv hbad hdf
    have hdfcol : lookupCol df col = some v := (hdf col (Or.inr rfl)).trans hv
    refine ⟨[col], ?_⟩
    simp only [List.nil_append, encodeLoop, hdfcol]
    cases ht : le.transformVal v with
    | ok i => rw [ht] at hbad; simp [Except.isOk, Except.toBool] at hbad
    | error e => simp [ht, hv]
  | cons p rest ih =>
    intro df col le post v hnd hpre hv hbad hdf
    obtain ⟨c0, le0⟩ := p
    have hdf0 : lookupCol df c0 = lookupCol data c0 :=
      hdf c0 (Or.inl (by simp))
    have hstep : encodeStepOk data (c0, le0) = true := hpre _ (by simp)
    simp only [List.cons_append, encodeLoop]
    have hnd' : ((rest ++ (col, le) :: post).map Prod.fst).Nodup := by
      simp only [List.cons_append, List.map_cons, List.nodup_cons] at hnd
      exact hnd.2
    have hc0 : c0 ∉ (rest ++ (col, le) :: post).map Prod.fst := by
      simp only [List.cons_append, List.map_cons, List.nodup_cons] at hnd
      exact hnd.1
    have hc0col : c0 ≠ col := by
      intro h
      exact hc0 (by simp [h])
    have hmem : ∀ c, c ∈ rest.map Prod.fst →
        c ∈ ((c0, le0) :: rest).map Prod.fst := by
      intro c hc
      rw [List.map_cons]
      exact List.mem_cons_of_mem _ hc
    cases hl : lookupCol data c0 with
    | none =>
      rw [hdf0, hl]
      exact ih df col le post v hnd'
        (fun p hp => hpre p (List.mem_cons_of_mem _ hp)) hv hbad
        (fun c hc => hdf c (by
          rcases hc with hc | hc
          · exact Or.inl (hmem c hc)
          · exact Or.inr hc))
    | some v0 =>
      rw [hdf0, hl]
      simp only [encodeStepOk, hl] at hstep
      cases ht : le0.transformVal v0 with
      | error e => rw [ht] at hstep; simp [Except.isOk, Except.toBool] at hstep
      | ok i =>
        have hdf' : ∀ c, c ∈ rest.map Prod.fst ∨ c = col →
            lookupCol (setCol df c0 (.int i)) c = lookupCol data c := by
          intro c hc
          have hcc0 : c ≠ c0 := by
            intro h
            subst h
            rcases hc with hc | hc
            · apply hc0
              rw [List.map_append]
              exact List.mem_append_left _ hc
            · exact hc0col hc
          rw [lookupCol_setCol_ne df c0 c (.int i) hcc0]
          exact hdf c (by
            rcases hc with hc | hc
            · exact Or.inl (hmem c hc)
            · exact Or.inr hc)
        obtain ⟨cs, hcs⟩ := ih (setCol df c0 (.int i)) col le post v hnd'
          (fun p hp => hpre p (List.mem_cons_of_mem _ hp)) hv hbad hdf'
        refine ⟨c0 :: cs, ?_⟩
        simp [ht, hcs]

/-! ## Claim theorems -/

/-- Claim C6: a `/predict` request with a missing or non-matching
`X-API-Key` credential receives a 403 Forbidden response and
short-circuits before any transform or predict work: the event trace is
empty, so no encoding, scaling, or model evaluation happens. -/
theorem auth_short_circuit (configuredKey : String) (st : ServerState)
    (header : Option String) (request : PredictionRequest) (t : ℚ)
    (h : header ≠ some configuredKey) :
    predictRoute configuredKey st header request t
      = (.error ⟨403, "Could not validate credentials"⟩, []) := by
  cases header with
  | none => rfl
  | some s =>
    have hs : s ≠ configuredKey := fun hh => h (by rw [hh])
    simp [predictRoute, get_api_key, hs]

/-- Witness for C6 at a concrete wrong key. -/
theorem auth_short_circuit_witness :
    (some "wrong" : Option String) ≠ some "secret-token" ∧
    predictRoute "secret-token" sampleState (some "wrong") sampleReq 0
      = (.error ⟨403, "Could not validate credentials"⟩, []) :=
  ⟨by decide,
   auth_short_circuit "secret-token" sampleState (some "wrong") sampleReq 0
    (by decide)⟩

/-- Claim C7: a failed artifact load is fatal to readiness but not to
the process: `load_artifacts` is a total function (every exception is
caught, so it returns a state rather than crashing), and whenever any of
the three loads failed, `/predict` with a valid credential answers 503
for every request body. -/
theorem load_failure_degrades (lm : Except String Model)
    (le : Except String (List (Field × LabelEncoder)))
    (ls : Except String StandardScaler) (k : String)
    (request : PredictionRequest) (t : ℚ)
    (h : lm.isOk = false ∨ le.isOk = false ∨ ls.isOk = false) :
    (predictRoute k (load_artifacts lm le ls) (some k) request t).1
      = .error ⟨503, "Model not loaded"⟩ := by
  cases lm with
  | error e => simp [predictRoute, get_api_key, load_artifacts, predict]
  | ok m =>
    cases le with
    | error e => simp [predictRoute, get_api_key, load_artifacts, predict]
    | ok es =>
      cases ls with
      | error e => simp [predictRoute, get_api_key, load_artifacts, predict]
      | ok sc => simp [Except.isOk, Except.toBool] at h

/-- Witness for C7: the model load fails, the other two succeed. -/
theorem load_failure_degrades_witness :
    ((Except.error "cannot open file" : Except String Model).isOk = false ∨
      (Except.ok sampleEncoders :
        Except String (List (Field × LabelEncoder))).isOk = false ∨
      (Except.ok sampleScaler : Except String StandardScaler).isOk = false) ∧
    (predictRoute "secret-token"
        (load_artifacts (.error "cannot open file") (.ok sampleEncoders)
          (.ok sampleScaler))
        (some "secret-token") sampleReq 0).1
      = .error ⟨503, "Model not loaded"⟩ :=
  ⟨Or.inl rfl,
   load_failure_degrades (.error "cannot open file") (.ok sampleEncoders)
    (.ok sampleScaler) "secret-token" sampleReq 0 (Or.inl rfl)⟩

/-- Claim C9: with the `API_KEY` environment variable unset the
configured credential is the hardcoded default `"secret-token"`; a
request carrying exactly that header passes authentication straight into
the endpoint body; and for any configured key the credential check is a
plain string equality. -/
theorem api_key_default :
    apiKeyConfig none = "secret-token" ∧
    (∀ (st : ServerState) (request : PredictionRequest) (t : ℚ),
      predictRoute (apiKeyConfig none) st (some "secret-token") request t
        = predict st request t) ∧
    (∀ (env : Option String) (header : Option String),
      (get_api_key (apiKeyConfig env) header).isOk
        = decide (header = some (apiKeyConfig env))) := by
  refine ⟨rfl, ?_, ?_⟩
  · intro st request t
    simp [predictRoute, get_api_key, apiKeyConfig]
  · intro env header
    cases header with
    | none => simp [get_api_key, Except.isOk, Except.toBool]
    | some x =>
      by_cases hx : x = apiKeyConfig env
      · simp [get_api_key, hx, Except.isOk, Except.toBool]
      · simp [get_api_key, hx, Except.isOk, Except.toBool]

/-- Counterexample for C4 as stated: with only the model loaded (the
encoders and scaler loads failed), `/health` still answers healthy even
though the bundle is not fully loaded, so "healthy iff the full bundle
is loaded" is false. -/
theorem health_counterexample :
    health_check ⟨some sampleModel, none, none⟩
      = .ok ("healthy", "drug-prediction-api") ∧
    bundleFullyLoaded ⟨some sampleModel, none, none⟩ = false :=
  ⟨rfl, rfl⟩

/-- Claim C4 (amended): `/health` answers healthy exactly when the model
artifact is loaded (the encoders and scaler are not consulted), and
`/predict` with a valid credential answers 503 whenever the bundle is
not fully loaded, regardless of the request body. -/
theorem health_and_predict_readiness :
    (∀ st : ServerState,
      (health_check st = .ok ("healthy", "drug-prediction-api"))
        ↔ st.model.isSome = true) ∧
    (∀ (st : ServerState) (k : String) (request : PredictionRequest) (t : ℚ),
      bundleFullyLoaded st = false →
      (predictRoute k st (some k) request t).1
        = .error ⟨503, "Model not loaded"⟩) := by
  constructor
  · intro st
    cases hm : st.model with
    | none => simp [health_check, hm]
    | some m => simp [health_check, hm]
  · intro st k request t hfl
    obtain ⟨mo, en, sc⟩ := st
    cases mo with
    | none => simp [predictRoute, get_api_key, predict]
    | some m =>
      cases en with
      | none => simp [predictRoute, get_api_key, predict]
      | some es =>
        cases sc with
        | none => simp [predictRoute, get_api_key, predict]
        | some s => simp [bundleFullyLoaded] at hfl

/-- Witness for C4 (amended), applying the readiness half at the empty
server state. -/
theorem health_and_predict_readiness_witness :
    (predictRoute "secret-token" ⟨none, none, none⟩ (some "secret-token")
      sampleReq 0).1 = .error ⟨503, "Model not loaded"⟩ :=
  health_and_predict_readiness.2 ⟨none, none, none⟩ "secret-token" sampleReq 0 rfl

/-- Claim C8: the response and the feature vector fed to the model
depend only on the bundle state and the request, not on the clock: two
runs of `/predict` on equal inputs and equal bundle state produce equal
outputs and identical feature vectors (determinism). -/
theorem transform_deterministic (k : String) (st : ServerState)
    (header : Option String) (request : PredictionRequest) (t1 t2 : ℚ) :
    (predictRoute k st header request t1).1
      = (predictRoute k st header request t2).1 ∧
    modelEvalVecs (predictRoute k st header request t1).2
      = modelEvalVecs (predictRoute k st header request t2).2 := by
  unfold predictRoute
  cases get_api_key k header with
  | error e => exact ⟨rfl, rfl⟩
  | ok s =>
    unfold predict
    obtain ⟨mo, en, sc⟩ := st
    cases mo with
    | none => exact ⟨rfl, rfl⟩
    | some m =>
      cases en with
      | none => exact ⟨rfl, rfl⟩
      | some es =>
        cases sc with
        | none => exact ⟨rfl, rfl⟩
        | some scl =>
          by_cases hes : es = []
          · simp [hes]
          · simp only [if_neg hes, runPipeline]
            cases hE : (encodeLoop request.toDict es request.toDict).1 with
            | error cv => simp only [hE]; exact ⟨trivial, trivial⟩
            | ok df1 =>
              simp only [hE]
              cases hS : scaleStep scl df1 with
              | error u => simp only [hS]; exact ⟨trivial, trivial⟩
              | ok df2 =>
                simp only [hS]
                cases hF : featureRow df2 with
                | error u => simp only [hF]; exact ⟨trivial, trivial⟩
                | ok vec =>
                  simp only [hF]
                  refine ⟨trivial, ?_⟩
                  simp [modelEvalVecs, List.filterMap_append]

/-- Claim C1: with a fully loaded bundle, if every encoder entry before
some entry `(col, le)` is skipped or succeeds on the request, the value
of the request at `col` is present but unknown to `le`, then `/predict`
answers 400 naming exactly that column and that raw value — entries
after it (which may also carry unknown values) are never reported — and
the model is never evaluated. -/
theorem unknown_category_rejected
    (m : Model) (sc : StandardScaler) (k : String) (t : ℚ)
    (req : PredictionRequest) (pre post : List (Field × LabelEncoder))
    (col : Field) (le : LabelEncoder) (v : PyVal)
    (hnd : ((pre ++ (col, le) :: post).map Prod.fst).Nodup)
    (hpre : ∀ p ∈ pre, encodeStepOk req.toDict p = true)
    (hv : lookupCol req.toDict col = some v)
    (hbad : (le.transformVal v).isOk = false) :
    (predictRoute k ⟨some m, some (pre ++ (col, le) :: post), some sc⟩
        (some k) req t).1
      = .error ⟨400, "Unknown category for " ++ col ++ ": " ++ v.pyStr⟩ ∧
    modelEvalVecs (predictRoute k ⟨some m, some (pre ++ (col, le) :: post),
        some sc⟩ (some k) req t).2 = [] := by
  obtain ⟨cs, hcs⟩ := encodeLoop_first_failure req.toDict pre req.toDict col le
    post v hnd hpre hv hbad (fun c _ => rfl)
  have hne : pre ++ (col, le) :: post ≠ [] := by simp
  constructor
  · simp [predictRoute, get_api_key, predict, hne, runPipeline, hcs]
  · simp [predictRoute, get_api_key, predict, hne, runPipeline, hcs,
      modelEvalVecs_map_encodeCol]

/-- Witness for C1: `Condition` carries the unknown value `"Weird"` and
`Side_Effects` the unknown value `"Odd"`; only `Condition`, the first
encountered, is reported, and the model is not evaluated. -/
theorem unknown_category_rejected_witness :
    (predictRoute "secret-token"
        ⟨some sampleModel, some sampleEncoders, some sampleScaler⟩
        (some "secret-token") ⟨50, "Male", "Weird", "DrugB", 120, 35, "Odd"⟩
        0).1
      = .error ⟨400, "Unknown category for Condition: Weird"⟩ ∧
    modelEvalVecs (predictRoute "secret-token"
        ⟨some sampleModel, some sampleEncoders, some sampleScaler⟩
        (some "secret-token") ⟨50, "Male", "Weird", "DrugB", 120, 35, "Odd"⟩
        0).2 = [] := by
  have h := unknown_category_rejected sampleModel sampleScaler "secret-token" 0
    ⟨50, "Male", "Weird", "DrugB", 120, 35, "Odd"⟩
    [("Gender", ⟨["Female", "Male"]⟩)]
    [("Drug_Name", ⟨["DrugA", "DrugB"]⟩), ("Side_Effects", ⟨["Mild", "None"]⟩)]
    "Condition" ⟨["Asthma", "Diabetes"]⟩ (.str "Weird")
    (by decide) (by decide) (by decide) (by decide)
  exact h

/-- Claim C2: the feature vector is assembled by iterating the schema,
never the key order of the raw record: two JSON bodies holding the same
field-value pairs in different key orders are handled identically —
same response and same event trace, hence same feature vector and same
prediction. -/
theorem reorder_invariant (k : String) (st : ServerState)
    (header : Option String) (t : ℚ) (raw1 raw2 : List (String × PyVal))
    (hp : raw1.Perm raw2) (hnd : (raw1.map Prod.fst).Nodup) :
    handleRaw k st header raw1 t = handleRaw k st header raw2 t := by
  have hpr := parseRequest_congr (lookup_perm hp hnd)
  unfold handleRaw
  rw [hpr]

/-- Witness for C2: the concrete body and its key-reversed permutation
are handled identically. -/
theorem reorder_invariant_witness :
    rawBody1.Perm rawBody2 ∧ (rawBody1.map Prod.fst).Nodup ∧
    handleRaw "secret-token" sampleState (some "secret-token") rawBody1 0
      = handleRaw "secret-token" sampleState (some "secret-token") rawBody2 0 :=
  ⟨by decide, by decide,
   reorder_invariant "secret-token" sampleState (some "secret-token") 0
    rawBody1 rawBody2 (by decide) (by decide)⟩

/-- Claim C3: with a fully loaded bundle shaped as the training pipeline
produces it, a request whose every categorical value is known to the
encoder of its field transforms successfully into a feature vector of
the schema length (7), in schema order `Age, Gender, Condition,
Drug_Name, Dosage_mg, Treatment_Duration_days, Side_Effects`, with each
numeric field standardized as `(x - mean) / stddev`, and that exact
vector reaches the model. -/
theorem valid_transform_schema_order
    (m : Model) (leG leC leD leS : LabelEncoder)
    (mA mD mT sA sD sT : ℚ) (req : PredictionRequest) (k : String) (t : ℚ)
    (iG iC iD iS : Nat) (vec : List ℚ)
    (hG : idxOf leG.classes req.Gender = some iG)
    (hC : idxOf leC.classes req.Condition = some iC)
    (hD : idxOf leD.classes req.Drug_Name = some iD)
    (hS : idxOf leS.classes req.Side_Effects = some iS)
    (hvec : vec = [((req.Age : ℚ) - mA) / sA, (iG : ℚ), (iC : ℚ), (iD : ℚ),
      (req.Dosage_mg - mD) / sD, ((req.Treatment_Duration_days : ℚ) - mT) / sT,
      (iS : ℚ)]) :
    predictRoute k ⟨some m,
        some [("Gender", leG), ("Condition", leC), ("Drug_Name", leD),
          ("Side_Effects", leS)],
        some ⟨[mA, mD, mT], [sA, sD, sT]⟩⟩ (some k) req t
      = (.ok ⟨m vec, "v1"⟩,
         [.encodeCol "Gender", .encodeCol "Condition", .encodeCol "Drug_Name",
          .encodeCol "Side_Effects", .scale, .modelEval vec, .metricObserve t,
          .metricInc "200"]) ∧
    vec.length = expected_cols.length := by
  subst hvec
  refine ⟨?_, by simp [expected_cols]⟩
  simp [predictRoute, get_api_key, predict, runPipeline, encodeLoop,
    PredictionRequest.toDict, lookupCol, setCol, LabelEncoder.transformVal,
    hG, hC, hD, hS, scaleStep, getNums, getNum, PyVal.toQ, num_cols,
    StandardScaler.transformRow, setNums, featureRow, expected_cols]

/-- Witness for C3 at the concrete sample bundle and request. -/
theorem valid_transform_schema_order_witness :
    predictRoute "secret-token"
        ⟨some sampleModel, some sampleEncoders, some sampleScaler⟩
        (some "secret-token") sampleReq 0
      = (.ok ⟨50, "v1"⟩,
         [.encodeCol "Gender", .encodeCol "Condition", .encodeCol "Drug_Name",
          .encodeCol "Side_Effects", .scale,
          .modelEval [50, 1, 0, 1, 120, 35, 1], .metricObserve 0,
          .metricInc "200"]) ∧
    ([(50 : ℚ), 1, 0, 1, 120, 35, 1]).length = expected_cols.length := by
  have h := valid_transform_schema_order sampleModel
    ⟨["Female", "Male"]⟩ ⟨["Asthma", "Diabetes"]⟩ ⟨["DrugA", "DrugB"]⟩
    ⟨["Mild", "None"]⟩ 0 0 0 1 1 1 sampleReq "secret-token" 0 1 0 1 1
    [50, 1, 0, 1, 120, 35, 1]
    (by decide) (by decide) (by decide) (by decide) (by simp [sampleReq])
  exact h

/-- Counterexample for C5 as stated: a request rejected with 400 for an
unknown category records neither a request-count increment nor a latency
observation, so not every failure path records both. -/
theorem metrics_missing_on_400 :
    statusOf (predictRoute "secret-token" sampleState (some "secret-token")
      ⟨50, "Unknown", "Asthma", "DrugB", 120, 35, "None"⟩ 0).1 = 400 ∧
    incStatuses (predictRoute "secret-token" sampleState (some "secret-token")
      ⟨50, "Unknown", "Asthma", "DrugB", 120, 35, "None"⟩ 0).2 = [] ∧
    obsCount (predictRoute "secret-token" sampleState (some "secret-token")
      ⟨50, "Unknown", "Asthma", "DrugB", 120, 35, "None"⟩ 0).2 = 0 := by
  decide

/-- Claim C5 (amended): metrics depend on the outcome path — the success
path records one latency observation and one count increment labeled
200; the unavailable (503) and internal-error (500) paths record one
count increment and no latency observation; the unknown-category (400)
and forbidden (403) paths record no metrics at all. -/
theorem metrics_by_outcome (k : String) (st : ServerState)
    (header : Option String) (request : PredictionRequest) (t : ℚ) :
    incStatuses (predictRoute k st header request t).2
      = (if statusOf (predictRoute k st header request t).1 = 200 then ["200"]
         else if statusOf (predictRoute k st header request t).1 = 500 then ["500"]
         else if statusOf (predictRoute k st header request t).1 = 503 then ["503"]
         else []) ∧
    obsCount (predictRoute k st header request t).2
      = (if statusOf (predictRoute k st header request t).1 = 200 then 1
         else 0) := by
  obtain ⟨mo, en, sc⟩ := st
  cases header with
  | none => simp [predictRoute, get_api_key, statusOf, incStatuses, obsCount]
  | some s =>
    by_cases hs : s = k
    · subst hs
      cases mo with
      | none =>
        simp [predictRoute, get_api_key, predict, statusOf, incStatuses,
          obsCount]
      | some m =>
        cases en with
        | none =>
          simp [predictRoute, get_api_key, predict, statusOf, incStatuses,
            obsCount]
        | some es =>
          cases sc with
          | none =>
            simp [predictRoute, get_api_key, predict, statusOf, incStatuses,
              obsCount]
          | some scl =>
            by_cases hes : es = []
            · simp [predictRoute, get_api_key, predict, hes, statusOf,
                incStatuses, obsCount]
            · obtain ⟨cs, hcs⟩ :=
                encodeLoop_trace request.toDict es request.toDict
              simp only [predictRoute, get_api_key, if_pos rfl, predict,
                if_neg hes, runPipeline]
              cases hE : (encodeLoop request.toDict es request.toDict).1 with
              | error cv =>
                simp [hE, hcs, statusOf, incStatuses_map_encodeCol,
                  obsCount_map_encodeCol]
              | ok df1 =>
                cases hS : scaleStep scl df1 with
                | error u =>
                  simp [hE, hS, hcs, statusOf, incStatuses_append,
                    obsCount_append, incStatuses_map_encodeCol,
                    obsCount_map_encodeCol, incStatuses, obsCount]
                | ok df2 =>
                  cases hF : featureRow df2 with
                  | error u =>
                    simp [hE, hS, hF, hcs, statusOf, incStatuses_append,
                      obsCount_append, incStatuses_map_encodeCol,
                      obsCount_map_encodeCol, incStatuses, obsCount]
                  | ok vec =>
                    simp [hE, hS, hF, hcs, statusOf, incStatuses_append,
                      obsCount_append, incStatuses_map_encodeCol,
                      obsCount_map_encodeCol, incStatuses, obsCount]
    · simp [predictRoute, get_api_key, hs, statusOf, incStatuses, obsCount]

/-- Claim C10: every successful `/predict` response carries the constant
model-version tag `"v1"`, for every bundle state, credential, request
and clock. -/
theorem model_version_constant (k : String) (st : ServerState)
    (header : Option String) (request : PredictionRequest) (t : ℚ)
    (r : PredictionResponse)
    (hok : (predictRoute k st header request t).1 = .ok r) :
    r.Model_Version = "v1" := by
  unfold predictRoute at hok
  cases hga : get_api_key k header with
  | error e => rw [hga] at hok; simp at hok
  | ok s =>
    rw [hga] at hok
    unfold predict at hok
    obtain ⟨mo, en, sc⟩ := st
    cases mo with
    | none => simp at hok
    | some m =>
      cases en with
      | none => simp at hok
      | some es =>
        cases sc with
        | none => simp at hok
        | some scl =>
          dsimp only at hok
          by_cases hes : es = []
          · rw [if_pos hes] at hok; simp at hok
          · rw [if_neg hes] at hok
            simp only [runPipeline] at hok
            cases hE : (encodeLoop request.toDict es request.toDict).1 with
            | error cv => simp [hE] at hok
            | ok df1 =>
              simp only [hE] at hok
              cases hS : scaleStep scl df1 with
              | error u => simp [hS] at hok
              | ok df2 =>
                simp only [hS] at hok
                cases hF : featureRow df2 with
                | error u => simp [hF] at hok
                | ok vec =>
                  simp [hF] at hok
                  rw [← hok]

/-- Witness for C10 at a concrete successful request. -/
theorem model_version_constant_witness :
    (predictRoute "secret-token" sampleState (some "secret-token") sampleReq
      0).1 = .ok ⟨50, "v1"⟩ ∧
    (⟨50, "v1"⟩ : PredictionResponse).Model_Version = "v1" := by
  have h : (predictRoute "secret-token" sampleState (some "secret-token")
      sampleReq 0).1 = .ok ⟨50, "v1"⟩ := by
    simp [sampleState, sampleReq, sampleEncoders, sampleScaler, sampleModel,
      predictRoute, get_api_key, predict, runPipeline, encodeLoop,
      PredictionRequest.toDict, lookupCol, setCol, LabelEncoder.transformVal,
      idxOf, scaleStep, getNums, getNum, PyVal.toQ, num_cols,
      StandardScaler.transformRow, setNums, featureRow, expected_cols]
  exact ⟨h, model_version_constant "secret-token" sampleState
    (some "secret-token") sampleReq 0 ⟨50, "v1"⟩ h⟩

end DrugAPI
